/-
Verification of the arena-pool-cpp single-header library (src/Arena.h)
against its natural-language specification.

The development shallowly embeds the three data structures of the header:

* `Arena`   — the bump allocator (class Arena, Arena.h lines 27-131);
* `Pool`    — the free-list pool allocator (class Pool, lines 147-349);
* `ISArray` — the sparse array (class ISArray / SArray / SArrayFixed,
              lines 351-1215).

Machine integers (`size_t`, `uintptr_t`) are modelled as `Nat` with an
explicit `% WSize` (`WSize = 2 ^ 64`) at every operation of the C++ code
where a wrap-around is possible.  Pointers are modelled by their integer
address (arena) or by the index of the slot they point into (pool, sparse
array); the null pointer is address `0` / `Option.none`.
-/
import Mathlib

set_option autoImplicit false

namespace ArenaPoolCpp

/-- Modulus of `size_t` / `uintptr_t` arithmetic on the 64-bit targets the
library is compiled for (`tests_*.cpp` use plain `g++` on a 64-bit host). -/
def WSize : Nat := 2 ^ 64

/-! ## Arena (Arena.h lines 27-131)

State of a `class Arena` object.  The `parent` pointer only matters for
destruction and `resize`, which the claims below do not touch, so it is not
part of the state; `buffer` is kept as the integer value of the `char*`
(0 encodes `nullptr`, which is what the constructor stores when `malloc`
or the parent allocation fails). -/
structure Arena where
  bufAddr : Nat
  total_size : Nat
  offset : Nat
  deriving DecidableEq, Repr

/-- Arena::used (line 128): returns `offset`. -/
def Arena.used (a : Arena) : Nat := a.offset

/-- Arena::size (line 124): returns `total_size`. -/
def Arena.size (a : Arena) : Nat := a.total_size

/-- Arena::allocate_raw (lines 84-100).  Returns the value of the returned
pointer (0 for `nullptr`) together with the state after the call.

```cpp
uintptr_t current_addr = reinterpret_cast<uintptr_t>(buffer) + offset;
size_t padding = (alignment - (current_addr % alignment)) % alignment;
size_t new_size = padding + size;
if (offset + new_size > total_size) return nullptr;
char* new_allocation = buffer + offset + padding;
offset += new_size;
return static_cast<void*>(new_allocation);
```

Every addition is a `size_t`/`uintptr_t`/pointer addition and therefore
wraps modulo `2^64`; the inner subtraction `alignment - current_addr %
alignment` cannot wrap because `current_addr % alignment < alignment`.
Note that the function does not check `buffer` for null: on a null-buffer
arena it still advances `offset` (see the C7 theorem below). -/
def Arena.allocate_raw (a : Arena) (size align : Nat) : Nat × Arena :=
  let current_addr := (a.bufAddr + a.offset) % WSize
  let padding := (align - current_addr % align) % align
  let new_size := (padding + size) % WSize
  if a.total_size < (a.offset + new_size) % WSize then
    (0, a)
  else
    ((a.bufAddr + a.offset + padding) % WSize,
     { a with offset := (a.offset + new_size) % WSize })

/-- Specification-side abbreviation: the padding `allocate_raw` computes when
none of the involved additions wrap (which the lemmas below establish from
the stated size bounds). -/
def Arena.pad (a : Arena) (align : Nat) : Nat :=
  (align - (a.bufAddr + a.offset) % align) % align

/-- Arena::allocate_size (lines 60-68) for a type of the given size and
alignment: unlike `allocate_raw` it checks `buffer` for null first. -/
def Arena.allocate_size (a : Arena) (sizeofT alignofT count : Nat) : Nat × Arena :=
  if a.bufAddr = 0 then (0, a)
  else a.allocate_raw (sizeofT * count) alignofT

/-- Arena::Arena(Arena&, size_t) (lines 41-45): the child arena's buffer is
whatever pointer `parent.allocate_raw(size)` returns (null included), its
`total_size` is the requested size and its offset 0.  `maxAlign` stands for
`alignof(std::max_align_t)` (16 on the 64-bit targets of the tests).
Returns (child, parent after the call). -/
def mkChildArena (parent : Arena) (size maxAlign : Nat) : Arena × Arena :=
  let r := parent.allocate_raw size maxAlign
  ({ bufAddr := r.1, total_size := size, offset := 0 }, r.2)

/-- Folding a list of `(size, alignment)` requests through `allocate_raw`,
keeping only the final state. -/
def runAllocs (a : Arena) : List (Nat × Nat) → Arena
  | [] => a
  | (s, al) :: rest => runAllocs (a.allocate_raw s al).2 rest

/-- Sum of `size + padding` over a request list, with each padding computed
in the arena state the corresponding call actually sees. -/
def sumSizesWithPads (a : Arena) : List (Nat × Nat) → Nat
  | [] => 0
  | (s, al) :: rest => (a.pad al + s) + sumSizesWithPads (a.allocate_raw s al).2 rest

/-- Every request of the list fits (no call takes the "no space" branch):
`offset + padding + size <= total_size` holds at each call. -/
def allFit (a : Arena) : List (Nat × Nat) → Bool
  | [] => true
  | (s, al) :: rest =>
    decide (a.offset + a.pad al + s ≤ a.total_size) && allFit (a.allocate_raw s al).2 rest

/-! ### Arithmetic helper lemmas for the arena -/

/-- Bumping an address to its alignment: adding the computed padding makes the
address a multiple of the (positive) alignment. -/
theorem pad_aligns (x al : Nat) (hal : 0 < al) :
    (x + (al - x % al) % al) % al = 0 := by
  have hmlt : x % al < al := Nat.mod_lt x hal
  rcases Nat.eq_zero_or_pos (x % al) with h0 | hpos
  · simp [h0, Nat.mod_self, Nat.add_mul_mod_self_left, h0]
  · have hlt : al - x % al < al := by omega
    rw [Nat.mod_eq_of_lt hlt]
    have hx := Nat.div_add_mod x al
    have : x + (al - x % al) = al * (x / al) + al := by omega
    rw [this]
    simp [Nat.add_mul_mod_self_left, Nat.mul_mod_right]

/-- Rounding an address up to a 2-power alignment that divides `2^63` stays
below `2^63` when the address itself is at most `2^63`. -/
theorem roundup_le_pow (x al : Nat) (hx : x ≤ 2 ^ 63) (hdvd : al ∣ 2 ^ 63)
    (hal : 0 < al) : x + (al - x % al) % al ≤ 2 ^ 63 := by
  have hmlt : x % al < al := Nat.mod_lt x hal
  rcases Nat.eq_zero_or_pos (x % al) with h0 | hpos
  · simp [h0, Nat.mod_self]
    omega
  · have hlt : al - x % al < al := by omega
    rw [Nat.mod_eq_of_lt hlt]
    obtain ⟨m, hm⟩ := hdvd
    have hx' : x < 2 ^ 63 := by
      rcases Nat.lt_or_ge x (2 ^ 63) with h | h
      · exact h
      · exfalso
        have hxe : x = 2 ^ 63 := le_antisymm hx h
        have : x % al = 0 := by
          rw [hxe, hm]
          exact Nat.mul_mod_right al m
        omega
    have hdiv : x / al < m := by
      have hm0 : 0 < m := by
        rcases Nat.eq_zero_or_pos m with h | h
        · exfalso; rw [h, Nat.mul_zero] at hm; exact absurd hm (by positivity)
        · exact h
      by_contra hge
      push_neg at hge
      have : al * m ≤ al * (x / al) := Nat.mul_le_mul_left al hge
      have hle : al * (x / al) ≤ x := Nat.mul_div_le x al
      omega
    have hx2 := Nat.div_add_mod x al
    have : x + (al - x % al) = al * (x / al + 1) := by
      rw [Nat.mul_add, Nat.mul_one]
      omega
    rw [this, hm]
    exact Nat.mul_le_mul_left al hdiv

/-- A successful `allocate_raw` (under the machine-realistic size bounds)
returns the bumped-and-padded address and advances `offset` by
`padding + size`; capacity and buffer are untouched. -/
theorem allocate_raw_success (a : Arena) (s al : Nat)
    (hb : a.bufAddr ≤ 2 ^ 62) (ht : a.total_size ≤ 2 ^ 62) (hal : 0 < al)
    (hfit : a.offset + a.pad al + s ≤ a.total_size) :
    a.allocate_raw s al =
      (a.bufAddr + a.offset + a.pad al,
       { a with offset := a.offset + a.pad al + s }) := by
  have hW : (2 : Nat) ^ 62 + 2 ^ 62 < WSize := by decide
  have hoff : a.offset ≤ a.total_size := by omega
  have hcur : a.bufAddr + a.offset < WSize := by
    have : a.bufAddr + a.offset ≤ 2 ^ 62 + 2 ^ 62 := by omega
    omega
  have hpad : a.pad al + s ≤ 2 ^ 62 := by
    have := hfit; omega
  simp only [Arena.allocate_raw]
  rw [Nat.mod_eq_of_lt hcur]
  have hpad_eq : (al - (a.bufAddr + a.offset) % al) % al = a.pad al := rfl
  rw [hpad_eq]
  have hnew : a.pad al + s < WSize := by unfold WSize; omega
  rw [Nat.mod_eq_of_lt hnew]
  have hsum : a.offset + (a.pad al + s) < WSize := by
    have : a.offset + (a.pad al + s) ≤ 2 ^ 62 + 2 ^ 62 := by omega
    omega
  rw [Nat.mod_eq_of_lt hsum]
  have hnotover : ¬ a.total_size < a.offset + (a.pad al + s) := by omega
  rw [if_neg hnotover]
  have haddr : a.bufAddr + a.offset + a.pad al < WSize := by
    have : a.pad al ≤ a.total_size := by omega
    have : a.bufAddr + a.offset + a.pad al ≤ 2 ^ 62 + 2 ^ 62 + 2 ^ 62 := by omega
    have h3 : (2 : Nat) ^ 62 + 2 ^ 62 + 2 ^ 62 < WSize := by decide
    omega
  rw [Nat.mod_eq_of_lt haddr]
  have : a.offset + (a.pad al + s) = a.offset + a.pad al + s := by omega
  rw [this]

/-- A call whose `offset + padding + size` exceeds the capacity returns the
null pointer and leaves the whole arena state unchanged (under the
machine-realistic bounds that rule out `size_t` wrap-around). -/
theorem allocate_raw_fail (a : Arena) (s al : Nat)
    (hb : a.bufAddr ≤ 2 ^ 62) (hb0 : 0 < a.bufAddr) (ht : a.total_size ≤ 2 ^ 62)
    (hoff : a.offset ≤ a.total_size) (hs : s ≤ 2 ^ 63) (hdvd : al ∣ 2 ^ 63)
    (hover : a.total_size < a.offset + a.pad al + s) :
    a.allocate_raw s al = (0, a) := by
  have hal : 0 < al := Nat.pos_of_dvd_of_pos hdvd (by positivity)
  have hcur : a.bufAddr + a.offset < WSize := by
    have h1 : a.bufAddr + a.offset ≤ 2 ^ 62 + 2 ^ 62 := by omega
    have h2 : (2 : Nat) ^ 62 + 2 ^ 62 < WSize := by decide
    omega
  have hx : a.bufAddr + a.offset ≤ 2 ^ 63 := by
    have h2 : (2 : Nat) ^ 62 + 2 ^ 62 ≤ 2 ^ 63 := by decide
    omega
  have hroundup := roundup_le_pow (a.bufAddr + a.offset) al hx hdvd hal
  have hpadbound : a.bufAddr + a.offset + a.pad al ≤ 2 ^ 63 := by
    unfold Arena.pad
    exact hroundup
  have hpadlt : a.pad al < al := by
    unfold Arena.pad
    exact Nat.mod_lt _ hal
  have hallt : al ≤ 2 ^ 63 := Nat.le_of_dvd (by positivity) hdvd
  simp only [Arena.allocate_raw]
  rw [Nat.mod_eq_of_lt hcur]
  have hpad_eq : (al - (a.bufAddr + a.offset) % al) % al = a.pad al := rfl
  rw [hpad_eq]
  have hnew : a.pad al + s < WSize := by
    have h1 : a.pad al + s ≤ 2 ^ 63 - 1 + 2 ^ 63 := by omega
    have h2 : (2 : Nat) ^ 63 - 1 + 2 ^ 63 < WSize := by decide
    omega
  rw [Nat.mod_eq_of_lt hnew]
  have hsum : a.offset + (a.pad al + s) < WSize := by
    have h1 : a.offset + a.pad al ≤ 2 ^ 63 - a.bufAddr := by omega
    have h2 : a.offset + (a.pad al + s) ≤ 2 ^ 63 - a.bufAddr + 2 ^ 63 := by omega
    have h3 : (2 : Nat) ^ 63 + 2 ^ 63 = WSize := by decide
    omega
  rw [Nat.mod_eq_of_lt hsum]
  have : a.total_size < a.offset + (a.pad al + s) := by omega
  rw [if_pos this]

/-- Accounting over a request list in which every call fits: the final offset
is the initial one plus the sum of all `size + padding`, stays within the
capacity, and buffer/capacity never change. -/
theorem runAllocs_accounting (reqs : List (Nat × Nat)) (a : Arena)
    (hb : a.bufAddr ≤ 2 ^ 62) (ht : a.total_size ≤ 2 ^ 62)
    (hoff : a.offset ≤ a.total_size)
    (hreqs : ∀ p ∈ reqs, 0 < p.2)
    (hfit : allFit a reqs = true) :
    (runAllocs a reqs).offset = a.offset + sumSizesWithPads a reqs ∧
    (runAllocs a reqs).offset ≤ a.total_size ∧
    (runAllocs a reqs).bufAddr = a.bufAddr ∧
    (runAllocs a reqs).total_size = a.total_size := by
  induction reqs generalizing a with
  | nil =>
    simp [runAllocs, sumSizesWithPads, hoff]
  | cons p rest ih =>
    obtain ⟨s, al⟩ := p
    have hfit1 : a.offset + a.pad al + s ≤ a.total_size ∧
        allFit (a.allocate_raw s al).2 rest = true := by
      simpa [allFit, Bool.and_eq_true] using hfit
    have hal : 0 < al := hreqs (s, al) (List.mem_cons_self _ _)
    have hsucc := allocate_raw_success a s al hb ht hal hfit1.1
    have hstate : (a.allocate_raw s al).2 = { a with offset := a.offset + a.pad al + s } := by
      rw [hsucc]
    have hboff : ({ a with offset := a.offset + a.pad al + s } : Arena).offset
        = a.offset + a.pad al + s := rfl
    have hbbuf : ({ a with offset := a.offset + a.pad al + s } : Arena).bufAddr
        = a.bufAddr := rfl
    have hbtot : ({ a with offset := a.offset + a.pad al + s } : Arena).total_size
        = a.total_size := rfl
    have ih' := ih { a with offset := a.offset + a.pad al + s }
      (by rw [hbbuf]; exact hb) (by rw [hbtot]; exact ht)
      (by rw [hboff, hbtot]; exact hfit1.1)
      (fun p hp => hreqs p (List.mem_cons_of_mem _ hp)) (by rw [← hstate]; exact hfit1.2)
    rw [hboff, hbtot, hbbuf] at ih'
    have hrun : runAllocs a ((s, al) :: rest)
        = runAllocs { a with offset := a.offset + a.pad al + s } rest := by
      rw [runAllocs, hstate]
    have hsum : sumSizesWithPads a ((s, al) :: rest)
        = (a.pad al + s) + sumSizesWithPads { a with offset := a.offset + a.pad al + s } rest := by
      rw [sumSizesWithPads, hstate]
    rw [hrun, hsum]
    refine ⟨by omega, ih'.2.1, ih'.2.2.1, ih'.2.2.2⟩

/-! ## Pool (Arena.h lines 133-349)

A `PoolItem<T>` is `{ PoolItem* next; PoolItem* prev; T value; }`.  Slot
addresses are stable for the lifetime of the pool (buffers are never
relocated), so a pointer to a `PoolItem` — and, through the fixed
`offsetof(PoolItem, value)` arithmetic of `Pool::deallocate`, a pointer to a
contained value — is modelled by the index of the slot in the concatenation
of all backing buffers in allocation order.  `value` is `Option`-valued to
track whether a live `T` is currently constructed in the slot. -/
variable {α : Type}

structure Slot (α : Type) where
  next : Option Nat
  prev : Option Nat
  value : Option α
  deriving DecidableEq, Repr

/-- State of a `class Pool` object.  The `arena`/`buffers`/`buffers_size`
bookkeeping only determines where slot storage comes from; the slots
themselves are the flat `slots` list. -/
structure Pool (α : Type) where
  slots : List (Slot α)
  free_ptr : Option Nat
  use_ptr : Option Nat
  used : Nat
  deriving DecidableEq, Repr

/-- Pool::Pool(pool_size) / Pool::reset (lines 174-200, 219-242): all
`pool_size` slots are chained into the free list in buffer order with null
`prev`, `free_ptr` is the first slot, `use_ptr` null, `_used` 0.
(For `pool_size = 0` the C++ `reset` dereferences a null `previous` —
undefined behaviour — so the model is only used with `n > 0`.) -/
def mkPool (α : Type) (n : Nat) : Pool α :=
  { slots := (List.range n).map (fun i =>
      ({ next := if i + 1 < n then some (i + 1) else none,
         prev := none, value := none } : Slot α)),
    free_ptr := if n = 0 then none else some 0,
    use_ptr := none,
    used := 0 }

/-- Default slot used to give `List.getD` a value to return out of range; the
modelled operations only read slots at indices that exist. -/
def nullSlot : Slot α := { next := none, prev := none, value := none }

/-- Pool::allocate_raw (lines 157-171): pops the head of the free list, links
it onto the head of the doubly-linked used list, bumps `_used` and returns a
pointer to the slot's `value` (modelled by the slot index).

```cpp
if(!free_ptr) return nullptr;
PoolItem<T>* chunk = free_ptr;
free_ptr = free_ptr->next;
if(use_ptr) use_ptr->prev = chunk;
chunk->next = use_ptr;
chunk->prev = nullptr;
use_ptr = chunk;
_used++;
return &chunk->value;
``` -/
def Pool.allocate_raw (p : Pool α) : Option Nat × Pool α :=
  match p.free_ptr with
  | none => (none, p)
  | some c =>
    let chunk := p.slots.getD c nullSlot
    let slots1 := match p.use_ptr with
      | some u => p.slots.set u ({ p.slots.getD u nullSlot with prev := some c })
      | none => p.slots
    let slots2 := slots1.set c ({ slots1.getD c nullSlot with next := p.use_ptr, prev := none })
    (some c,
     { slots := slots2, free_ptr := chunk.next, use_ptr := some c,
       used := (p.used + 1) % WSize })

/-- Pool::allocate (lines 253-265): `allocate_raw` plus writing the value into
the slot (memcpy for trivially copyable `T`, copy construction otherwise —
either way the slot ends up holding the value). -/
def Pool.allocate (p : Pool α) (v : α) : Option Nat × Pool α :=
  match p.allocate_raw with
  | (none, p1) => (none, p1)
  | (some c, p1) =>
    (some c,
     { p1 with slots := p1.slots.set c ({ p1.slots.getD c nullSlot with value := some v }) })

/-- Pool::deallocate (lines 267-291), called with the slot index recovered
from the value pointer (`ptr == nullptr` is the `none` case).

```cpp
if(ptr == nullptr) return;
PoolItem<T>* item = ...offsetof arithmetic...;
if(use_ptr != item && item->prev == nullptr) return;
if(!trivially_destructible) item->value.~T();
if(item->prev) item->prev->next = item->next;
if(item->next) item->next->prev = item->prev;
if(use_ptr == item) use_ptr = item->next;
item->next = free_ptr;
item->prev = nullptr;
free_ptr = item;
_used--;
```

The destructor call is modelled by clearing the slot's value (for trivially
destructible `T` the bytes survive in C++, but no operation reads a freed
slot's value).  `_used--` is the `size_t` decrement, hence the `% WSize`. -/
def Pool.deallocate (p : Pool α) (ptr : Option Nat) : Pool α :=
  match ptr with
  | none => p
  | some i =>
    let item := p.slots.getD i nullSlot
    if p.use_ptr ≠ some i ∧ item.prev = none then p
    else
      let slots1 := p.slots.set i ({ p.slots.getD i nullSlot with value := none })
      let slots2 := match item.prev with
        | some pp => slots1.set pp ({ slots1.getD pp nullSlot with next := item.next })
        | none => slots1
      let slots3 := match item.next with
        | some nn => slots2.set nn ({ slots2.getD nn nullSlot with prev := item.prev })
        | none => slots2
      let use1 := if p.use_ptr = some i then item.next else p.use_ptr
      let slots4 := slots3.set i
        ({ slots3.getD i nullSlot with next := p.free_ptr, prev := none })
      { slots := slots4, free_ptr := some i, use_ptr := use1,
        used := (p.used + (WSize - 1)) % WSize }

/-- Pool::grow (lines 293-334), success path: appends `size` fresh slots
chained among themselves in order, the last one pointing at the old
`free_ptr`, and makes the first fresh slot the new free-list head.

```cpp
for(size_t i = 1; i < size; i++) new_buffer[i - 1].next = &(new_buffer[i]);
new_buffer[size - 1].next = free_ptr;
free_ptr = &(new_buffer[0]);
```

The loop never touches the `prev` (or `value`) fields of the fresh slots:
they keep whatever bytes `malloc` / the arena handed over.  That
indeterminate content is made explicit by the `prevBytes` parameter, which
supplies, per fresh slot, the pointer value its `prev` field happens to
contain.  (`size = 0` would make `new_buffer[size - 1]` an out-of-bounds
write in C++; the model is only used with `size > 0`.) -/
def Pool.grow (p : Pool α) (size : Nat) (prevBytes : List (Option Nat)) : Pool α :=
  let base := p.slots.length
  let fresh := (List.range size).map (fun i =>
    ({ next := if i + 1 < size then some (base + i + 1) else p.free_ptr,
       prev := prevBytes.getD i none,
       value := none } : Slot α))
  { p with slots := p.slots ++ fresh,
           free_ptr := if size = 0 then p.free_ptr else some base }

/-! ## Sparse array (Arena.h lines 351-1215)

State of an `ISArray<T>` (the common base of `SArray<T>` and
`SArrayFixed<T, N>`).  `buffer` holds `Option α`: `some v` when a `T` with
value `v` is currently constructed in the slot, `none` when not.  A
destructor call (which the C++ skips for trivially destructible `T`) is
modelled by clearing the slot; no modelled operation reads the value of an
inactive slot, so this is observation-equivalent for trivial `T` too.
Element moves/copies are modelled on the move-construct/destruct branch of
the C++ (the `memcpy` branch produces the same active slots and values).

`SArray::init` (lines 1071-1107) `malloc`s the `active` array without
initialising it; the model starts from the intended all-false state (the
state `reset()` establishes), which every scenario below makes concrete by
writing each flag before reading it. -/
structure ISArray (α : Type) where
  buffer : List (Option α)
  active : List Bool
  buffer_size : Nat
  used : Nat
  last : Nat
  deriving DecidableEq, Repr

/-- A freshly constructed `SArray<T>(size)` / `SArrayFixed<T, size>` with the
`active` mask in its intended initial state (see the note above). -/
def mkSArray (α : Type) (size : Nat) : ISArray α :=
  { buffer := List.replicate size none,
    active := List.replicate size false,
    buffer_size := size, used := 0, last := 0 }

/-- ISArray::maybe_set_last (lines 360-370):

```cpp
if(_last != pos) return;
_last = 0;
if(!_used) return;
for(size_t i = 0; i < buffer_size; i++) if(active[i]) _last = i + 1;
``` -/
def ISArray.lastScan (s : ISArray α) : Nat :=
  (List.range s.buffer_size).foldl
    (fun acc i => if s.active.getD i false then i + 1 else acc) 0

/-- Dispatch of ISArray::maybe_set_last: the rescan only happens when the
erased position was exactly the high-water boundary. -/
def ISArray.maybe_set_last (s : ISArray α) (pos : Nat) : ISArray α :=
  if s.last ≠ pos then s
  else if s.used = 0 then { s with last := 0 }
  else { s with last := s.lastScan }

/-- ISArray::push (lines 800-815): writes at index `_last`, guarded only by
`_used == buffer_size`.

```cpp
if(_used == buffer_size) return nullptr;
...write buffer[_last]...
active[_last] = true;
_used++; _last++;
return &(buffer[_last - 1]);
```

Note the guard does not compare `_last` with `buffer_size`: when
`_last == buffer_size` but `_used < buffer_size` the write is out of bounds
in C++ (the list `set` is a no-op there; the returned index still records
where the write went — see the C6 theorem).  `push_new` (lines 817-827) has
identical bookkeeping. -/
def ISArray.push (s : ISArray α) (v : α) : Option Nat × ISArray α :=
  if s.used = s.buffer_size then (none, s)
  else
    (some s.last,
     { s with buffer := s.buffer.set s.last (some v),
              active := s.active.set s.last true,
              used := s.used + 1, last := s.last + 1 })

/-- ISArray::pop (lines 829-839): removes the element at `_last - 1` and
recomputes `_last` via `maybe_set_last(_last)`. -/
def ISArray.pop (s : ISArray α) : ISArray α :=
  if s.used = 0 then s
  else
    ISArray.maybe_set_last
      { s with used := s.used - 1,
               active := s.active.set (s.last - 1) false,
               buffer := s.buffer.set (s.last - 1) none }
      s.last

/-- ISArray::erase (lines 845-855): deactivates slot `pos` (no-op when out of
range or inactive), destructs the value, and runs `maybe_set_last(pos + 1)`. -/
def ISArray.erase (s : ISArray α) (pos : Nat) : ISArray α :=
  if s.buffer_size = 0 ∨ s.buffer_size ≤ pos ∨ s.active.getD pos false = false then s
  else
    ISArray.maybe_set_last
      { s with used := s.used - 1,
               active := s.active.set pos false,
               buffer := s.buffer.set pos none }
      (pos + 1)

/-- Scanning loop of ISArray::fill (lines 584-606): first index `i ≥` the
argument with `active[i]` false gets the value; `_last` grows only when the
gap is exactly at `_last`.  Fuel is the number of indices left to scan. -/
def ISArray.fillLoop (s : ISArray α) (v : α) : Nat → Nat → Option Nat × ISArray α
  | _, 0 => (none, s)
  | i, fuel + 1 =>
    if s.active.getD i false then ISArray.fillLoop s v (i + 1) fuel
    else
      (some i,
       { s with buffer := s.buffer.set i (some v),
                active := s.active.set i true,
                used := s.used + 1,
                last := if i = s.last then s.last + 1 else s.last })

/-- ISArray::fill (lines 584-606): `fill_new` (608-626) has identical
bookkeeping. -/
def ISArray.fill (s : ISArray α) (v : α) : Option Nat × ISArray α :=
  if s.used = s.buffer_size then (none, s)
  else ISArray.fillLoop s v 0 s.buffer_size

/-- ISArray::replace (lines 628-647):

```cpp
if(!buffer_size || pos >= buffer_size || pos < 0) return nullptr;
if(active[pos]) { buffer[pos] = item; }
else { ...construct at buffer[pos]...; _used++; }
if(pos >= _last) _last = pos + 1;
return &(buffer[pos]);
```

The inactive branch increments `_used` but — unlike `replace_new` — never
sets `active[pos]` (see the C3 theorem). -/
def ISArray.replace (s : ISArray α) (pos : Nat) (v : α) : Option Nat × ISArray α :=
  if s.buffer_size = 0 ∨ s.buffer_size ≤ pos then (none, s)
  else
    let s1 :=
      if s.active.getD pos false then { s with buffer := s.buffer.set pos (some v) }
      else { s with buffer := s.buffer.set pos (some v), used := s.used + 1 }
    (some pos, { s1 with last := if s.last ≤ pos then pos + 1 else s1.last })

/-- ISArray::replace_new (lines 654-669): like `replace` but the inactive
branch also sets `active[pos] = true`. -/
def ISArray.replace_new (s : ISArray α) (pos : Nat) (v : α) : Option Nat × ISArray α :=
  if s.buffer_size = 0 ∨ s.buffer_size ≤ pos then (none, s)
  else
    let s1 :=
      if s.active.getD pos false then { s with buffer := s.buffer.set pos (some v) }
      else { s with buffer := s.buffer.set pos (some v),
                    active := s.active.set pos true, used := s.used + 1 }
    (some pos, { s1 with last := if s.last ≤ pos then pos + 1 else s1.last })

/-- ISArray::at (lines 572-582) and operator[] (477-485): null unless the
array is non-empty, the index in range and the slot active. -/
def ISArray.atIdx (s : ISArray α) (pos : Nat) : Option Nat :=
  if s.used = 0 ∨ s.buffer_size ≤ pos ∨ s.active.getD pos false = false then none
  else some pos

/-- Body of the ISArray::compact loop (lines 869-894), iterating `i` upward
with the given fuel.  `target` is the C++ `size_t target = -1` sentinel,
modelled as `Option Nat` (`none` encodes `SIZE_MAX`; the `target == _used`
break can never fire on the sentinel since `_used < SIZE_MAX` in any state
the C++ can reach without already having wrapped).

```cpp
for(size_t i = 0; i < buffer_size; i++) {
  if(target == _used) break;
  else if(target == -1) { if(!active[i]) target = i; }
  else if(active[i]) {
    ...move buffer[i] to buffer[target], destruct buffer[i]...
    active[i] = false; active[target] = true; target++;
  }
}
``` -/
def ISArray.compactLoop (used : Nat) :
    List (Option α) → List Bool → Option Nat → Nat → Nat →
    List (Option α) × List Bool × Option Nat
  | buf, act, target, _, 0 => (buf, act, target)
  | buf, act, target, i, fuel + 1 =>
    match target with
    | none =>
      if act.getD i false then ISArray.compactLoop used buf act none (i + 1) fuel
      else ISArray.compactLoop used buf act (some i) (i + 1) fuel
    | some t =>
      if t = used then (buf, act, some t)
      else if act.getD i false then
        ISArray.compactLoop used
          ((buf.set t (buf.getD i none)).set i none)
          ((act.set i false).set t true)
          (some (t + 1)) (i + 1) fuel
      else ISArray.compactLoop used buf act (some t) (i + 1) fuel

/-- ISArray::compact (lines 869-894): no-op when empty or already dense;
otherwise slides the active elements down into a dense prefix and, when the
loop produced a target, sets `_last` to it. -/
def ISArray.compact (s : ISArray α) : ISArray α :=
  if s.used = 0 ∨ s.used = s.last then s
  else
    match ISArray.compactLoop s.used s.buffer s.active none 0 s.buffer_size with
    | (buf, act, some t) => { s with buffer := buf, active := act, last := t }
    | (buf, act, none) => { s with buffer := buf, active := act }

/-- Shifting loop of ISArray::insert_make_room_for_count (lines 688-697), on
the move-construct/destruct branch the C++ takes for types that are not
trivially copyable:

```cpp
for(size_t i = _last - 1 + count; i >= (position + count); i--) {
  new (&buffer[i]) T(std::move(buffer[i - count]));
  buffer[i - count].~T();
}
```

`i` starts at `_last - 1 + count` and the loop runs `_last - position`
iterations (zero when `position >= _last`, matching the `size_t`
comparison).  For trivially copyable types the C++ instead calls
`memmove(&buffer[position + count], &buffer[position], sizeof(T) * (_used -
position))`, whose byte count is a `size_t` subtraction that wraps around
when `position > _used` — see the C9 theorem. -/
def ISArray.makeRoomLoop (count : Nat) :
    List (Option α) → Nat → Nat → List (Option α)
  | buf, _, 0 => buf
  | buf, i, fuel + 1 =>
    ISArray.makeRoomLoop count
      ((buf.set i (buf.getD (i - count) none)).set (i - count) none)
      (i - 1) fuel

/-- ISArray::insert_make_room_for_count (lines 677-699). -/
def ISArray.insert_make_room_for_count (s : ISArray α) (position count : Nat) : ISArray α :=
  if position = s.last then s
  else
    { s with buffer :=
        ISArray.makeRoomLoop count s.buffer (s.last - 1 + count) (s.last - position) }

/-- ISArray::insert (lines 702-723):

```cpp
if(!count || _used + count > buffer_size || position > _last || position == buffer_size)
  return nullptr;
compact();
insert_make_room_for_count(position, count);
for(size_t i = 0; i < count; i++) {
  active[_last + i] = true;
  ...construct item at buffer[position + i]...
}
_last += count; _used += count;
return &buffer[position];
```

Note the `position > _last` guard is evaluated against the pre-compact
`_last`. -/
def ISArray.insert (s : ISArray α) (position count : Nat) (v : α) :
    Option Nat × ISArray α :=
  if count = 0 ∨ s.buffer_size < s.used + count ∨ s.last < position ∨
      position = s.buffer_size then (none, s)
  else
    let s1 := (s.compact).insert_make_room_for_count position count
    let s2 := (List.range count).foldl
      (fun t i =>
        { t with active := t.active.set (t.last + i) true,
                 buffer := t.buffer.set (position + i) (some v) })
      s1
    (some position, { s2 with last := s2.last + count, used := s2.used + count })

/-- SArray move constructor (lines 999-1009):

```cpp
SArray(SArray<T>&& other) : SArray() {
  if(other.arena()) _arena = other.arena();
  this->buffer = other.buffer;
  this->active = other.active;
  this->_used = other._used;
  this->buffer_size = other.buffer_size;
  this->_last = 5;
  other.moved_reset();
}
```

All fields are taken over from `other` except `_last`, which is assigned
the literal constant 5. -/
def moveConstruct (other : ISArray α) : ISArray α :=
  { buffer := other.buffer, active := other.active,
    buffer_size := other.buffer_size, used := other.used, last := 5 }

/-- Invariant stated by the data model of the spec: `used_count <= high_water
<= capacity`, and every index at or beyond `high_water` is inactive. -/
def ISArray.invariantHolds (s : ISArray α) : Prop :=
  s.used ≤ s.last ∧ s.last ≤ s.buffer_size ∧
    ∀ i < s.buffer_size, s.last ≤ i → s.active.getD i false = false

instance (s : ISArray α) : Decidable s.invariantHolds := by
  unfold ISArray.invariantHolds
  infer_instance

/-! ### The forward iterator (Arena.h lines 373-421, 487-499, 517-522)

`begin()` scans for the first active index (staying at `buffer` when there
is none) and pairs it with the end pointer `&buffer[_last]`; `end()` is
`&buffer[_last]` as well (or `buffer` when `buffer_size == 0`).  A range-for
loop visits `*it` whenever `it != end()` and advances with `operator++`,
which steps one slot and then skips inactive slots until it reaches `_end`.
Pointers into the buffer are modelled by their slot index. -/

/-- Index `begin()` starts at. -/
def ISArray.beginPos (s : ISArray α) : Nat :=
  ((List.range s.buffer_size).find? (fun i => s.active.getD i false)).getD 0

/-- Index `end()` compares equal to. -/
def ISArray.endPos (s : ISArray α) : Nat :=
  if s.buffer_size = 0 then 0 else s.last

/-- Skip part of `iterator::operator++` (forward case, lines 409-416):
`while(it != _end && !*_active) { it++; _active++; }` with `_end` at
`&buffer[_last]`. -/
def ISArray.skipFwd (s : ISArray α) : Nat → Nat → Nat
  | pos, 0 => pos
  | pos, fuel + 1 =>
    if pos ≠ s.last ∧ s.active.getD pos false = false then
      ISArray.skipFwd s (pos + 1) fuel
    else pos

/-- Indices a range-for loop visits: collect the current position while it
differs from the end position, advancing with `operator++`. -/
def ISArray.fwdLoop (s : ISArray α) : Nat → Nat → Nat → List Nat
  | _, _, 0 => []
  | pos, endP, fuel + 1 =>
    if pos = endP then []
    else pos :: ISArray.fwdLoop s (ISArray.skipFwd s (pos + 1) (s.buffer_size + 1)) endP fuel

/-- Slot indices visited by forward iteration from `begin()` to `end()`. -/
def ISArray.fwdIndices (s : ISArray α) : List Nat :=
  ISArray.fwdLoop s s.beginPos s.endPos (s.last + 1)

/-! ## Helper lemmas about the pool -/

/-- When the deallocation guard does not fire (the slot passes the code's own
liveness test: it is the used-list head or has a non-null `prev`), the freed
slot unconditionally becomes the new free-list head. -/
theorem deallocate_free_ptr (p : Pool α) (x : Nat)
    (hlive : p.use_ptr = some x ∨ (p.slots.getD x nullSlot).prev ≠ none) :
    (p.deallocate (some x)).free_ptr = some x := by
  have hguard : ¬ (p.use_ptr ≠ some x ∧ (p.slots.getD x nullSlot).prev = none) := by
    rcases hlive with h | h
    · intro hc; exact hc.1 h
    · intro hc; exact h hc.2
  unfold Pool.deallocate
  split
  next heq => exact Option.noConfusion heq
  next c heq =>
    cases heq
    dsimp only
    rw [if_neg hguard]

/-- Pool::allocate_raw pops the free-list head: whenever the free list is
non-empty, the returned value pointer is the head slot's. -/
theorem allocate_raw_fst_of_free (q : Pool α) (c : Nat) (h : q.free_ptr = some c) :
    q.allocate_raw.1 = some c := by
  unfold Pool.allocate_raw
  rw [h]

/-- Same as `allocate_raw_fst_of_free` through Pool::allocate. -/
theorem allocate_fst_of_free (q : Pool α) (c : Nat) (h : q.free_ptr = some c) (v : α) :
    (q.allocate v).1 = some c := by
  have h1 := allocate_raw_fst_of_free q c h
  unfold Pool.allocate
  rcases hq : q.allocate_raw with ⟨r, p1⟩
  rw [hq] at h1
  simp at h1
  subst h1
  rfl

/-! ## Claims -/

/-- C1: for every arena and every sequence of `allocate_raw(size, alignment)`
calls with power-of-two alignment, a successful call returns the aligned
address and advances the offset by `padding + size`, so that after `n`
successful calls `used() == sum(s_i + padding_i)` and `used() <= size()`;
any call for which `offset + padding + size` exceeds the capacity returns
null and leaves `used()`, `size()` and the buffer unchanged.

Power-of-two `size_t` alignments are exactly the divisors of `2^63`; the
remaining hypotheses are the machine-realistic bounds (a real, non-null
buffer below the canonical address limit, capacity and request sizes that a
64-bit allocator can represent) under which none of the `size_t` additions
of the C++ wraps. -/
theorem arena_allocate_raw_correct (a : Arena) (s align : Nat) (reqs : List (Nat × Nat))
    (hb0 : 0 < a.bufAddr) (hb : a.bufAddr ≤ 2 ^ 62) (ht : a.total_size ≤ 2 ^ 62)
    (hoff : a.offset ≤ a.total_size) (hs : s ≤ 2 ^ 63) (hdvd : align ∣ 2 ^ 63)
    (hreqs : ∀ p ∈ reqs, p.2 ∣ 2 ^ 63) :
    (a.offset + a.pad align + s ≤ a.total_size →
      a.allocate_raw s align =
        (a.bufAddr + a.offset + a.pad align,
         { a with offset := a.offset + a.pad align + s }) ∧
      (a.allocate_raw s align).1 % align = 0) ∧
    (a.total_size < a.offset + a.pad align + s → a.allocate_raw s align = (0, a)) ∧
    (allFit a reqs = true →
      (runAllocs a reqs).used = a.used + sumSizesWithPads a reqs ∧
      (runAllocs a reqs).used ≤ (runAllocs a reqs).size ∧
      (runAllocs a reqs).bufAddr = a.bufAddr) := by
  have hal : 0 < align := Nat.pos_of_dvd_of_pos hdvd (by positivity)
  refine ⟨fun hfit => ?_, fun hover => allocate_raw_fail a s align hb hb0 ht hoff hs hdvd hover,
    fun hfitall => ?_⟩
  · have h := allocate_raw_success a s align hb ht hal hfit
    refine ⟨h, ?_⟩
    rw [h]
    exact pad_aligns (a.bufAddr + a.offset) align hal
  · have hpos : ∀ p ∈ reqs, 0 < p.2 :=
      fun p hp => Nat.pos_of_dvd_of_pos (hreqs p hp) (by positivity)
    have h := runAllocs_accounting reqs a hb ht hoff hpos hfitall
    refine ⟨h.1, ?_, h.2.2.1⟩
    show (runAllocs a reqs).offset ≤ (runAllocs a reqs).total_size
    rw [h.2.2.2]
    exact h.2.1

/-- Witness for C1 at a concrete arena (malloc'd buffer at address 16,
capacity 100): a single 20-byte request aligned to 8 and a three-request
sequence, all fitting. -/
theorem arena_allocate_raw_correct_witness :
    ((⟨16, 100, 0⟩ : Arena).offset + (⟨16, 100, 0⟩ : Arena).pad 8 + 20 ≤ 100) ∧
    ((⟨16, 100, 0⟩ : Arena).allocate_raw 20 8).1 % 8 = 0 ∧
    allFit ⟨16, 100, 0⟩ [(4, 4), (10, 8), (3, 1)] = true ∧
    (runAllocs ⟨16, 100, 0⟩ [(4, 4), (10, 8), (3, 1)]).used
      = (⟨16, 100, 0⟩ : Arena).used + sumSizesWithPads ⟨16, 100, 0⟩ [(4, 4), (10, 8), (3, 1)] ∧
    (runAllocs ⟨16, 100, 0⟩ [(4, 4), (10, 8), (3, 1)]).used
      ≤ (runAllocs ⟨16, 100, 0⟩ [(4, 4), (10, 8), (3, 1)]).size := by
  have h := arena_allocate_raw_correct ⟨16, 100, 0⟩ 20 8 [(4, 4), (10, 8), (3, 1)]
    (by decide) (by decide) (by decide) (by decide) (by decide) (by decide) (by decide)
  exact ⟨by decide, (h.1 (by decide)).2, by decide,
    (h.2.2 (by decide)).1, (h.2.2 (by decide)).2.1⟩

/-- C2: the claim states that every operation producing a new array state —
the move constructor included — preserves `used_count <= high_water <=
capacity` and keeps indices at or beyond `high_water` inactive.  The code
violates it: `SArray(SArray&&)` (Arena.h line 1006) assigns the literal
constant 5 to `_last` instead of `other._last`, so moving an `SArray<int>`
of capacity 2 holding one pushed element yields `high_water = 5 >
capacity = 2` although the invariant held before the move. -/
theorem sarray_move_ctor_breaks_invariant :
    (((mkSArray Nat 2).push 1).2).invariantHolds ∧
    (moveConstruct (((mkSArray Nat 2).push 1).2)).last = 5 ∧
    (moveConstruct (((mkSArray Nat 2).push 1).2)).buffer_size = 2 ∧
    ¬ (moveConstruct (((mkSArray Nat 2).push 1).2)).invariantHolds := by
  decide

/-- Scenario for C3: capacity-2 array whose slot 0 is known-inactive (push 5,
push 6, erase 0), so that `replace(0, _)` takes its empty-slot branch. -/
def replaceScenario : ISArray Nat :=
  ((((mkSArray Nat 2).push 5).2.push 6).2).erase 0

/-- C3: the claim states that `replace(pos, value)` on an empty slot
constructs the value, marks the slot active, and increments `used()`.  The
code violates it for `replace` (Arena.h lines 628-647): the empty-slot
branch increments `_used` but never sets `active[pos]`, so the slot stays
inactive (`at(pos)` still returns null) while `used()` counts it;
`replace_new` (lines 654-669) does set the flag. -/
theorem replace_empty_slot_not_marked_active :
    (replaceScenario.replace 0 7).1 = some 0 ∧
    (replaceScenario.replace 0 7).2.used = 2 ∧
    (replaceScenario.replace 0 7).2.active.getD 0 false = false ∧
    (replaceScenario.replace 0 7).2.atIdx 0 = none ∧
    (replaceScenario.replace_new 0 7).2.used = 2 ∧
    (replaceScenario.replace_new 0 7).2.active.getD 0 false = true ∧
    (replaceScenario.replace_new 0 7).2.atIdx 0 = some 0 := by
  decide

/-- C4: deallocating a live item X and then allocating returns a pointer with
the same address as X: `deallocate` pushes the freed slot onto the head of
the free list and the next allocation pops the free-list head.  "Live" is
the code's own test, the one that makes `deallocate` proceed: the slot is
the used-list head or its `prev` is non-null. -/
theorem pool_lifo_reuse (p : Pool α) (x : Nat) (v : α)
    (hx : x < p.slots.length)
    (hlive : p.use_ptr = some x ∨ (p.slots.getD x nullSlot).prev ≠ none) :
    (p.deallocate (some x)).free_ptr = some x ∧
    ((p.deallocate (some x)).allocate_raw).1 = some x ∧
    ((p.deallocate (some x)).allocate v).1 = some x := by
  have h1 := deallocate_free_ptr p x hlive
  exact ⟨h1, allocate_raw_fst_of_free _ _ h1, allocate_fst_of_free _ _ h1 v⟩

/-- Concrete pool for the C4 witness: `Pool<int>(2)` after allocating the
values 5 (slot 0) and 6 (slot 1); slot 0 is live and not the used-list
head, so its `prev` is non-null. -/
def lifoPool : Pool Nat := (((mkPool Nat 2).allocate 5).2.allocate 6).2

/-- Witness for C4: deallocating slot 0 of `lifoPool` and allocating again
returns slot 0's address. -/
theorem pool_lifo_reuse_witness :
    (0 < lifoPool.slots.length) ∧
    (lifoPool.use_ptr = some 0 ∨ (lifoPool.slots.getD 0 nullSlot).prev ≠ none) ∧
    (lifoPool.deallocate (some 0)).free_ptr = some 0 ∧
    ((lifoPool.deallocate (some 0)).allocate_raw).1 = some 0 ∧
    ((lifoPool.deallocate (some 0)).allocate 8).1 = some 0 := by
  have h := pool_lifo_reuse lifoPool 0 8 (by decide) (by decide)
  exact ⟨by decide, by decide, h.1, h.2.1, h.2.2⟩

/-- Scenario for C5: `Pool<int>(1)`, one live allocation (value 7 in slot 0),
then `grow(1)` appends slot 1 whose `prev` field keeps whatever bytes the
backing memory held — here the case where those bytes equal slot 0's
address. -/
def poolGrowScenario : Pool Nat :=
  (((mkPool Nat 1).allocate 7).2).grow 1 [some 0]

/-- C5: the claim states that deallocating a pointer to a never-yet-allocated
slot — slots added later by `grow` included — is a guaranteed no-op.  The
code violates it: `Pool::grow` (Arena.h lines 293-334) never initialises the
`prev` fields of the fresh slots, so the `deallocate` guard (line 278) reads
indeterminate bytes.  When those bytes are non-null the call proceeds: it
writes through the garbage `prev` pointer, pushes the already-free slot onto
the free list again (here making it its own successor), and decrements
`_used` from 1 to 0 although one item is still live (with no live item the
`size_t` decrement would wrap to `2^64 - 1`).  This also contradicts the
code's own comment (lines 276-277) that a free item's `prev` is null. -/
theorem grow_slot_deallocate_not_noop :
    poolGrowScenario.used = 1 ∧
    poolGrowScenario.use_ptr = some 0 ∧
    (poolGrowScenario.slots.getD 1 nullSlot).value = none ∧
    poolGrowScenario.deallocate (some 1) ≠ poolGrowScenario ∧
    (poolGrowScenario.deallocate (some 1)).used = 0 ∧
    (poolGrowScenario.deallocate (some 1)).use_ptr = some 0 ∧
    ((poolGrowScenario.deallocate (some 1)).slots.getD 0 nullSlot).value = some 7 ∧
    ((poolGrowScenario.deallocate (some 1)).slots.getD 1 nullSlot).next = some 1 := by
  decide

/-- Scenario for C6: `SArray<int>(2)` after push(1), push(2), erase(0) — one
live element, `high_water` stuck at 2 = capacity because the erase was not
at the boundary. -/
def pushOverflowScenario : ISArray Nat :=
  ((((mkSArray Nat 2).push 1).2.push 2).2).erase 0

/-- C6: the claim states that after any sequence of push/erase/pop/fill/
compact, forward iteration visits exactly `used()` elements at active
indices below `high_water`.  The code violates it: `push` (Arena.h lines
800-815) guards only `_used == buffer_size`, so in `pushOverflowScenario`
(`_used = 1 < 2` but `_last = 2 = buffer_size`) a third push writes element
and `active` flag at index 2 = capacity — an out-of-bounds heap write in
C++ — and returns that out-of-range pointer.  The tracked state ends with
`used() = 2`, `high_water = 3 > capacity`, yet only one in-bounds slot is
active, so forward iteration visits 1 element, not `used() = 2` (the C++
iterator additionally reads `active[2]` out of bounds). -/
theorem push_beyond_high_water_breaks_iteration :
    pushOverflowScenario.used = 1 ∧
    pushOverflowScenario.last = pushOverflowScenario.buffer_size ∧
    (pushOverflowScenario.push 3).1 = some 2 ∧
    (pushOverflowScenario.push 3).2.used = 2 ∧
    (pushOverflowScenario.push 3).2.last = 3 ∧
    (pushOverflowScenario.push 3).2.buffer_size = 2 ∧
    ISArray.fwdIndices ((pushOverflowScenario.push 3).2) = [1] ∧
    (ISArray.fwdIndices ((pushOverflowScenario.push 3).2)).length
      ≠ ((pushOverflowScenario.push 3).2).used := by
  decide

/-- Child arena built from a parent whose own 10-byte buffer cannot supply
the requested 100 bytes: the child ends up with a null buffer but
`total_size = 100`. -/
def nullBufferChild : Arena := (mkChildArena ⟨16, 10, 0⟩ 100 16).1

/-- C7: the claim states that on a child arena whose construction failed
(null buffer) every allocation — `allocate_raw` included — fails cleanly by
returning null.  The code violates it for `allocate_raw` (Arena.h lines
84-100): the function has no null-buffer check (unlike `allocate_size`,
line 62), so on the null-buffer child it still advances `offset`; the first
call happens to return address 0 + 0 + 0 = null, but the second returns the
non-null garbage pointer 4.  `allocate_size` (and with it `allocate` and
`allocate_new`, which route through it) does return null and leaves the
state unchanged. -/
theorem null_buffer_allocate_raw_returns_nonnull :
    nullBufferChild.bufAddr = 0 ∧
    nullBufferChild.total_size = 100 ∧
    (nullBufferChild.allocate_raw 4 4).1 = 0 ∧
    (nullBufferChild.allocate_raw 4 4).2.used = 4 ∧
    ((nullBufferChild.allocate_raw 4 4).2.allocate_raw 4 4).1 = 4 ∧
    ((nullBufferChild.allocate_raw 4 4).2.allocate_raw 4 4).1 ≠ 0 ∧
    (nullBufferChild.allocate_size 4 4 1).1 = 0 ∧
    (nullBufferChild.allocate_size 4 4 1).2 = nullBufferChild := by
  decide

/-- Counterexample to C8 as stated: a parent arena (malloc'd 16-aligned
buffer at address 16, capacity 100) whose offset is 4 after an earlier
4-byte allocation has ample space for a 16-byte child, yet constructing the
child raises `used()` by 12 + 16 = 28 — the 12 bytes being the padding to
`alignof(max_align_t) = 16` — and not by exactly 16. -/
theorem child_arena_exact_k_counterexample :
    (⟨16, 100, 4⟩ : Arena).offset + (⟨16, 100, 4⟩ : Arena).pad 16 + 16
      ≤ (⟨16, 100, 4⟩ : Arena).total_size ∧
    (mkChildArena ⟨16, 100, 4⟩ 16 16).1.used = 0 ∧
    ¬ ((mkChildArena ⟨16, 100, 4⟩ 16 16).2.used = (⟨16, 100, 4⟩ : Arena).used + 16) := by
  decide

/-- C8 as amended: constructing a child of size `k` from a parent with
sufficient space increases the parent's `used()` by `padding + k`, where
`padding` realigns the parent's bump position to `alignof(max_align_t)`;
the increase is exactly `k` precisely when the current position is already
max-aligned, and the child's own `used()` starts at 0. -/
theorem child_arena_accounting_with_padding (parent : Arena) (k A : Nat)
    (hb : parent.bufAddr ≤ 2 ^ 62) (ht : parent.total_size ≤ 2 ^ 62) (hA : 0 < A)
    (hfit : parent.offset + parent.pad A + k ≤ parent.total_size) :
    (mkChildArena parent k A).2.used = parent.used + (parent.pad A + k) ∧
    (mkChildArena parent k A).1.used = 0 ∧
    (parent.pad A = 0 → (mkChildArena parent k A).2.used = parent.used + k) := by
  have h := allocate_raw_success parent k A hb ht hA hfit
  have h2 : (mkChildArena parent k A).2
      = { parent with offset := parent.offset + parent.pad A + k } := by
    unfold mkChildArena
    rw [h]
  refine ⟨?_, rfl, fun hp0 => ?_⟩
  · rw [h2]
    show parent.offset + parent.pad A + k = parent.offset + (parent.pad A + k)
    omega
  · rw [h2]
    show parent.offset + parent.pad A + k = parent.offset + k
    omega

/-- Witness for the amended C8: a fresh max-aligned parent (address 16,
offset 0) gives zero padding, so a 16-byte child increases `used()` by
exactly 16 and starts with `used() = 0`. -/
theorem child_arena_accounting_witness :
    ((⟨16, 100, 0⟩ : Arena).offset + (⟨16, 100, 0⟩ : Arena).pad 16 + 16 ≤ 100) ∧
    (mkChildArena ⟨16, 100, 0⟩ 16 16).2.used
      = (⟨16, 100, 0⟩ : Arena).used + ((⟨16, 100, 0⟩ : Arena).pad 16 + 16) ∧
    (mkChildArena ⟨16, 100, 0⟩ 16 16).1.used = 0 ∧
    (mkChildArena ⟨16, 100, 0⟩ 16 16).2.used = (⟨16, 100, 0⟩ : Arena).used + 16 := by
  have h := child_arena_accounting_with_padding ⟨16, 100, 0⟩ 16 16
    (by decide) (by decide) (by decide) (by decide)
  exact ⟨by decide, h.1, h.2.1, h.2.2 (by decide)⟩

/-- Scenario for C9: `SArray<int>(4)` after push(1), push(2), erase(0) — one
live element in slot 1, `high_water = 2`, so position 2 is inside the
pre-compact `[0, _last]` range but outside the dense range `[0, 1]` the
array has after the compaction `insert` performs. -/
def insertGapScenario : ISArray Nat :=
  ((((mkSArray Nat 4).push 1).2.push 2).2).erase 0

/-- C9: the claim states that `insert` returns null and leaves the array
unchanged whenever `pos` lies outside the current dense range.  The code
violates it: the guard of `insert` (Arena.h line 704) compares `pos`
against the pre-compact `_last`, so `insert(2, 1, 99)` on
`insertGapScenario` passes the guard, compacts (dense size 1), and
proceeds.  For trivially copyable types `insert_make_room_for_count`
(line 681) then calls `memmove` with byte count `sizeof(T) * (_used -
position)` — a `size_t` underflow of `1 - 2`, i.e. a multi-exabyte move
that crashes.  On the move-construct branch modelled here the shifting loop
runs zero times and the state is corrupted instead: the call returns a
non-null pointer to slot 2, slot 1 is marked active with no constructed
value in it, and the constructed value 99 sits in the inactive slot 2. -/
theorem insert_outside_dense_range_corrupts :
    insertGapScenario.used = 1 ∧
    insertGapScenario.last = 2 ∧
    (insertGapScenario.compact).last = 1 ∧
    (insertGapScenario.insert 2 1 99).1 = some 2 ∧
    (insertGapScenario.insert 2 1 99).2.active.getD 1 false = true ∧
    (insertGapScenario.insert 2 1 99).2.buffer.getD 1 none = none ∧
    (insertGapScenario.insert 2 1 99).2.active.getD 2 false = false ∧
    (insertGapScenario.insert 2 1 99).2.buffer.getD 2 none = some 99 := by
  decide

/-- State of the C10 scenario after the four pushes into `SArray<int>(4)`. -/
def c10AfterPushes : ISArray Nat :=
  (((((mkSArray Nat 4).push 1).2.push 2).2.push 3).2.push 4).2

/-- Final state of the C10 scenario: push(22) failed without changing the
array, then erase(0); fill(9); erase(1); compact(). -/
def c10Final : ISArray Nat :=
  ((((c10AfterPushes.erase 0).fill 9).2).erase 1).compact

/-- Counterexample to C10 as stated: running exactly the claimed sequence —
push 1,2,3,4; push(22); erase(0); fill(9); erase(1); compact() — does not
leave the array equal to `[9, 3, 7]`: slot 2 holds 4.  (The `[9, 3, 7]`
outcome in `tests_sarray.cpp` lines 64-95 comes from a longer sequence
with an additional `pop()` and `fill(7)` that the claim omits.) -/
theorem scenario_compact_counterexample :
    ¬ (c10Final.buffer.getD 0 none = some 9 ∧
       c10Final.buffer.getD 1 none = some 3 ∧
       c10Final.buffer.getD 2 none = some 7) := by
  decide

/-- C10 as amended: on `SArray<int>` of capacity 4, after push(1), push(2),
push(3), push(4): push(22) returns null leaving the array unchanged; after
erase(0), fill(9) places 9 at index 0; after erase(1), compact() leaves the
array equal to `[9, 3, 4]` with `used() == 3`. -/
theorem scenario_compact_amended :
    (c10AfterPushes.push 22).1 = none ∧
    (c10AfterPushes.push 22).2 = c10AfterPushes ∧
    ((c10AfterPushes.erase 0).fill 9).1 = some 0 ∧
    c10Final.buffer = [some 9, some 3, some 4, none] ∧
    c10Final.active = [true, true, true, false] ∧
    c10Final.used = 3 ∧
    c10Final.last = 3 ∧
    ISArray.fwdIndices c10Final = [0, 1, 2] := by
  decide

end ArenaPoolCpp
